import Mathlib

/-!
Verification development for the film-database repository.

The Python sources are shallowly embedded as pure Lean functions:

* `src/backend/db.py` — `run_select_query` / `run_insert_query` become total
  functions over an explicit outcome of the underlying MySQL call
  (`SelectOutcome` / `WriteResult`), mirroring the try/except blocks that
  convert engine faults into `([], [])` respectively `0` affected rows.
* `src/backend/queries.py` — `find_movie_id_by_title` and `insert_review`.
* `src/insert_db.py` — the loader stages issue SQL statements through a
  cursor; each stage is embedded as a function from its input rows to the
  list of statements it issues (a trace), together with explicit state for
  the in-memory "seen" sets it maintains.  Applying a trace to a database
  value models the engine executing those statements.
* `src/filter_data.py` — the `__main__` driver's sequence of function calls,
  with Python name resolution made explicit.

Machine integers do not overflow anywhere in the modelled code, so Python
ints are embedded as `Int` / `Nat` directly.  A SQL `NULL`-able column is an
`Option`.  Strings are embedded as `String`.
-/

namespace FilmDB

/-! ## Query execution layer (`src/backend/db.py`) -/

/-- Outcome of the underlying MySQL round-trip for one SELECT statement, as
seen by `run_select_query`: the engine returned rows and column names, the
engine raised `mysql.connector.Error`, or `get_connection()` returned
`None`. -/
inductive SelectOutcome (α : Type) where
  | ok (rows : List α) (cols : List String)
  | err (msg : String)
  | connFailed
deriving DecidableEq

/-- Embedding of `run_select_query` (db.py lines 65–117): a successful
execute returns `(rows, column_names)`; a caught `Error` returns `([], [])`;
a failed connection returns the initialised empty `(rows, column_names)`. -/
def run_select_query {α : Type} : SelectOutcome α → List α × List String
  | .ok rows cols => (rows, cols)
  | .err _ => ([], [])
  | .connFailed => ([], [])

/-- Outcome of the underlying MySQL round-trip for one INSERT statement, as
seen by `run_insert_query`: either the engine committed and reported a row
count, or it raised `mysql.connector.Error`. -/
inductive WriteResult where
  | ok (affected : Int)
  | err (msg : String)
deriving DecidableEq

/-- Embedding of `run_insert_query` (db.py lines 119–168): returns
`cursor.rowcount` on success and `0` after a caught `Error` (the except
branch rolls back and returns 0). -/
def run_insert_query : WriteResult → Int
  | .ok n => n
  | .err _ => 0

/-! ## Title lookup (`src/backend/queries.py`, `find_movie_id_by_title`) -/

/-- One row of the SELECT issued by `find_movie_id_by_title`:
`SELECT movieId, primaryTitle, startYear FROM Movies WHERE primaryTitle = %s`.
`startYear` is a NULL-able integer column, hence `Option Int`. -/
structure TitleRow where
  movieId : String
  primaryTitle : String
  startYear : Option Int
deriving DecidableEq

/-- Python truthiness of the `startYear` cell (`if row[2]` in the list
comprehension): `None` and `0` are falsy, every other integer is truthy. -/
def pyTruthyYear : Option Int → Bool
  | none => false
  | some y => !(y == 0)

/-- Embedding of Python `str(row[2])` applied to the `startYear` cell. -/
def strOfYear : Option Int → String
  | none => "None"
  | some y => toString y

/-- The not-found message built by `find_movie_id_by_title`
(`f"No movie found with title '{movie_title}'"`). -/
def noMovieMsg (t : String) : String :=
  "No movie found with title \x27" ++ t ++ "\x27"

/-- The ambiguous-title message built by `find_movie_id_by_title`
(`f"Multiple movies found with title '{movie_title}' ({years_str}). Please be more specific."`). -/
def multipleMsg (t yearsStr : String) : String :=
  "Multiple movies found with title \x27" ++ t ++ "\x27 (" ++ yearsStr ++ "). Please be more specific."

/-- The `years_str` computation of `find_movie_id_by_title`:
`years = [str(row[2]) for row in rows if row[2]]` followed by
`", ".join(years) if years else "various years"`. -/
def yearsStrOf (rows : List TitleRow) : String :=
  let years := (rows.filter fun r => pyTruthyYear r.startYear).map fun r => strOfYear r.startYear
  if years.isEmpty then "various years" else String.intercalate ", " years

/-- The branching of `find_movie_id_by_title` (queries.py lines 405–413) on
the fetched rows: `len(rows) == 0`, `len(rows) == 1` (returning `rows[0][0]`),
else the ambiguous message. -/
def movieIdFromRows (t : String) (rows : List TitleRow) : Option String × String :=
  match rows with
  | [] => (none, noMovieMsg t)
  | [r] => (some r.movieId, "")
  | rs => (none, multipleMsg t (yearsStrOf rs))

/-- Embedding of `find_movie_id_by_title` (queries.py lines 384–413): run the
parameterised SELECT through `run_select_query`, then branch on the rows. -/
def find_movie_id_by_title (t : String) (o : SelectOutcome TitleRow) : Option String × String :=
  movieIdFromRows t (run_select_query o).1

/-- Meaning of the SQL filter `WHERE primaryTitle = %s` over the Movies
table: exactly the rows whose `primaryTitle` equals the parameter. -/
def selectMoviesByTitle (movies : List TitleRow) (t : String) : List TitleRow :=
  movies.filter fun r => r.primaryTitle == t

/-! ## Review insertion (`src/backend/queries.py`, `insert_review`) -/

/-- The parameter tuple of the INSERT statement issued by `insert_review`:
`INSERT INTO Review (userId, movieId, rating, content, post_time)`. -/
structure ReviewRow where
  userId : Int
  movieId : String
  rating : Int
  content : String
  post_time : String
deriving DecidableEq

/-- Embedding of `insert_review` (queries.py lines 420–464).  Besides the
`(success, message)` pair returned to the GUI, the embedding also returns the
list of INSERT statements actually issued to the storage layer, so that
"zero rows written / storage untouched" is expressible: the validation
branch issues no statement at all. -/
def insert_review (user_id : Int) (movie_id : String) (rating : Int) (content : String)
    (post_time : String) (w : WriteResult) : (Bool × String) × List ReviewRow :=
  if rating < 1 ∨ rating > 10 then
    ((false, "Rating must be between 1 and 10."), [])
  else
    let affected := run_insert_query w
    let issued := [ReviewRow.mk user_id movie_id rating content post_time]
    if affected == 1 then ((true, "Review inserted successfully."), issued)
    else if affected > 1 then
      ((true, "Inserted " ++ toString affected ++ " rows (unexpected)."), issued)
    else ((false, "No row inserted (check userId/movieId)."), issued)

/-! ## Theorems about the query layer -/

/-- C1: with the database reachable, `find_movie_id_by_title` resolves a
title as follows: a unique `Movies` row with that `primaryTitle` yields
`(that row's movieId, "")`; no matching row yields `(None, not-found
message)`; two or more matching rows yield `(None, m)` where `m` is the
ambiguous-title message listing `str(startYear)` of every matching movie
(each matching movie having a truthy `startYear` cell). -/
theorem find_movie_id_by_title_resolution (t : String) (movies : List TitleRow)
    (cols : List String) :
    (∀ r, selectMoviesByTitle movies t = [r] →
      find_movie_id_by_title t (SelectOutcome.ok (selectMoviesByTitle movies t) cols)
        = (some r.movieId, "")) ∧
    (selectMoviesByTitle movies t = [] →
      find_movie_id_by_title t (SelectOutcome.ok (selectMoviesByTitle movies t) cols)
        = (none, noMovieMsg t)) ∧
    (2 ≤ (selectMoviesByTitle movies t).length →
      (∀ r ∈ selectMoviesByTitle movies t, pyTruthyYear r.startYear = true) →
      find_movie_id_by_title t (SelectOutcome.ok (selectMoviesByTitle movies t) cols)
        = (none, multipleMsg t (String.intercalate ", "
            ((selectMoviesByTitle movies t).map fun r => strOfYear r.startYear)))) := by
  refine ⟨?_, ?_, ?_⟩
  · intro r h
    simp only [find_movie_id_by_title, run_select_query, h, movieIdFromRows]
  · intro h
    simp only [find_movie_id_by_title, run_select_query, h, movieIdFromRows]
  · intro hlen htruthy
    rcases hrows : selectMoviesByTitle movies t with _ | ⟨a, _ | ⟨b, rest⟩⟩
    · rw [hrows] at hlen; simp at hlen
    · rw [hrows] at hlen; simp at hlen
    · rw [hrows] at htruthy
      simp only [find_movie_id_by_title, run_select_query, hrows, movieIdFromRows]
      have hfilter : (a :: b :: rest).filter (fun r => pyTruthyYear r.startYear)
          = a :: b :: rest := List.filter_eq_self.mpr htruthy
      simp only [yearsStrOf, hfilter]
      simp [List.isEmpty]

/-- Witness for `find_movie_id_by_title_resolution`: a two-row Movies table
where the title "Dune" matches both rows (years 1984 and 2021), a unique
match for "Up", and no match for "Gone". -/
theorem find_movie_id_by_title_resolution_witness :
    find_movie_id_by_title "Up"
        (SelectOutcome.ok (selectMoviesByTitle
          [TitleRow.mk "tt1" "Dune" (some 1984), TitleRow.mk "tt2" "Dune" (some 2021),
           TitleRow.mk "tt3" "Up" (some 2009)] "Up") [])
      = (some "tt3", "") ∧
    find_movie_id_by_title "Gone"
        (SelectOutcome.ok (selectMoviesByTitle
          [TitleRow.mk "tt1" "Dune" (some 1984), TitleRow.mk "tt2" "Dune" (some 2021),
           TitleRow.mk "tt3" "Up" (some 2009)] "Gone") [])
      = (none, noMovieMsg "Gone") ∧
    find_movie_id_by_title "Dune"
        (SelectOutcome.ok (selectMoviesByTitle
          [TitleRow.mk "tt1" "Dune" (some 1984), TitleRow.mk "tt2" "Dune" (some 2021),
           TitleRow.mk "tt3" "Up" (some 2009)] "Dune") [])
      = (none, multipleMsg "Dune" (String.intercalate ", "
          ((selectMoviesByTitle
            [TitleRow.mk "tt1" "Dune" (some 1984), TitleRow.mk "tt2" "Dune" (some 2021),
             TitleRow.mk "tt3" "Up" (some 2009)] "Dune").map
            fun r => strOfYear r.startYear))) :=
  ⟨(find_movie_id_by_title_resolution "Up"
      [TitleRow.mk "tt1" "Dune" (some 1984), TitleRow.mk "tt2" "Dune" (some 2021),
       TitleRow.mk "tt3" "Up" (some 2009)] []).1
      (TitleRow.mk "tt3" "Up" (some 2009)) (by decide),
   (find_movie_id_by_title_resolution "Gone"
      [TitleRow.mk "tt1" "Dune" (some 1984), TitleRow.mk "tt2" "Dune" (some 2021),
       TitleRow.mk "tt3" "Up" (some 2009)] []).2.1 (by decide),
   (find_movie_id_by_title_resolution "Dune"
      [TitleRow.mk "tt1" "Dune" (some 1984), TitleRow.mk "tt2" "Dune" (some 2021),
       TitleRow.mk "tt3" "Up" (some 2009)] []).2.2 (by decide) (by decide)⟩

/-- C2: `insert_review` rejects every rating outside [1, 10] with
`(False, validation message)` and an empty statement trace — no INSERT is
issued, so zero rows are written and the stored state is untouched,
whatever the storage layer would have answered. -/
theorem insert_review_rejects_out_of_range (uid : Int) (mid : String) (rating : Int)
    (content pt : String) (w : WriteResult) (h : rating < 1 ∨ rating > 10) :
    insert_review uid mid rating content pt w
      = ((false, "Rating must be between 1 and 10."), []) := by
  unfold insert_review
  rw [if_pos h]

/-- Witness for `insert_review_rejects_out_of_range`: the spec scenario
`rating = 11`, with a storage layer that would happily report success. -/
theorem insert_review_rejects_out_of_range_witness :
    insert_review 7 "tt0413354" 11 "great movie" "2024-01-01 00:00:00" (WriteResult.ok 1)
      = ((false, "Rating must be between 1 and 10."), []) :=
  insert_review_rejects_out_of_range 7 "tt0413354" 11 "great movie" "2024-01-01 00:00:00"
    (WriteResult.ok 1) (Or.inr (by norm_num))

/-- C7: query-layer failures become structured outcomes at the call
boundary.  A SELECT whose engine call raises, or whose connection fails,
returns the empty result `([], [])`; a write whose engine call raises makes
`insert_review` return `(False, non-empty message)` — in the embedding both
wrappers are total functions, so no fault propagates to the caller. -/
theorem query_layer_failures_structured :
    (∀ m : String, run_select_query (α := TitleRow) (SelectOutcome.err m) = ([], [])) ∧
    run_select_query (α := TitleRow) SelectOutcome.connFailed = ([], []) ∧
    (∀ (uid : Int) (mid : String) (rating : Int) (content pt m : String),
      ((insert_review uid mid rating content pt (WriteResult.err m)).1).1 = false ∧
      ((insert_review uid mid rating content pt (WriteResult.err m)).1).2 ≠ "") := by
  refine ⟨fun m => rfl, rfl, fun uid mid rating content pt m => ?_⟩
  by_cases h : rating < 1 ∨ rating > 10
  · rw [insert_review, if_pos h]
    exact ⟨rfl, by decide⟩
  · have hrun : insert_review uid mid rating content pt (WriteResult.err m)
        = ((false, "No row inserted (check userId/movieId)."),
           [ReviewRow.mk uid mid rating content pt]) := by
      rw [insert_review, if_neg h]; rfl
    rw [hrun]
    refine ⟨rfl, fun hc => ?_⟩
    have hne : ("No row inserted (check userId/movieId)." : String) = "" → False := by decide
    exact hne hc

/-- C10: a storage failure is invisible to `find_movie_id_by_title`.  Both a
raising SELECT and a failed connection make `run_select_query` return
`([], [])`, which is exactly what a genuinely empty result looks like, so
`find_movie_id_by_title` answers `(None, "No movie found …")` in all three
cases — the caller cannot tell an outage from a missing title. -/
theorem storage_failure_indistinguishable_from_no_match (t m : String) (cols : List String) :
    find_movie_id_by_title t (SelectOutcome.err m) = (none, noMovieMsg t) ∧
    find_movie_id_by_title t SelectOutcome.connFailed = (none, noMovieMsg t) ∧
    find_movie_id_by_title t (SelectOutcome.ok [] cols) = (none, noMovieMsg t) :=
  ⟨rfl, rfl, rfl⟩

/-! ## Role loading stage (`src/insert_db.py`, `insert_roles`, lines 225–272) -/

/-- One row of `filtered_data/principals.tsv` as read by `insert_roles`:
only the `tconst` (movie id), `nconst` (person id) and `category` columns
are consulted. -/
structure PrincipalRow where
  tconst : String
  nconst : String
  category : String
deriving DecidableEq

/-- One SQL statement issued by `insert_roles`.  The synthetic random
attributes passed alongside (`number_of_fans`, `directing_style`,
`writing_style`) do not affect which statements are issued nor their keys,
so they are not carried in the trace; the `best_known_movieId` argument,
which is the movie id of the current row, is.  `actsIn` is the single
statement written with `INSERT IGNORE`; all others are plain `INSERT`. -/
inductive RoleOp where
  | insertActor (actorId : String)
  | actsIn (movieId actorId : String)
  | insertDirector (directorId bestKnownMovieId : String)
  | directs (movieId directorId : String)
  | insertWriter (writerId bestKnownMovieId : String)
  | writesScriptFor (movieId writerId : String)
deriving DecidableEq

/-- The three in-memory "seen" sets (`actors`, `directors`, `writers`)
maintained by `insert_roles`; Python sets of person ids are embedded as
lists queried by membership. -/
structure RoleState where
  actors : List String
  directors : List String
  writers : List String
deriving DecidableEq

/-- Processing of one principals row by `insert_roles`: the `category`
if-chain, the first-sighting check against the corresponding seen set, and
the statements issued (subtype insert on first sighting, then the
membership insert).  Categories other than actor/actress/director/writer
are skipped. -/
def roleStep (s : RoleState) (r : PrincipalRow) : RoleState × List RoleOp :=
  if r.category == "actor" || r.category == "actress" then
    if s.actors.contains r.nconst then
      (s, [RoleOp.actsIn r.tconst r.nconst])
    else
      ({ s with actors := r.nconst :: s.actors },
        [RoleOp.insertActor r.nconst, RoleOp.actsIn r.tconst r.nconst])
  else if r.category == "director" then
    if s.directors.contains r.nconst then
      (s, [RoleOp.directs r.tconst r.nconst])
    else
      ({ s with directors := r.nconst :: s.directors },
        [RoleOp.insertDirector r.nconst r.tconst, RoleOp.directs r.tconst r.nconst])
  else if r.category == "writer" then
    if s.writers.contains r.nconst then
      (s, [RoleOp.writesScriptFor r.tconst r.nconst])
    else
      ({ s with writers := r.nconst :: s.writers },
        [RoleOp.insertWriter r.nconst r.tconst, RoleOp.writesScriptFor r.tconst r.nconst])
  else (s, [])

/-- The streaming loop of `insert_roles`: fold `roleStep` over the rows in
file order, concatenating the issued statements. -/
def runRoles (s : RoleState) : List PrincipalRow → List RoleOp
  | [] => []
  | r :: rest => (roleStep s r).2 ++ runRoles (roleStep s r).1 rest

/-- Embedding of `insert_roles`: a single pass over the principals file
starting from three empty seen sets, producing the statement trace. -/
def insert_roles (rows : List PrincipalRow) : List RoleOp :=
  runRoles (RoleState.mk [] [] []) rows

/-- The three roles handled by `insert_roles`. -/
inductive Role where
  | actor
  | director
  | writer
deriving DecidableEq

/-- Whether a principals row is an observation of person `pid` in the given
role, using the same category tests as `insert_roles`. -/
def observes (role : Role) (pid : String) (r : PrincipalRow) : Bool :=
  match role with
  | .actor => (r.category == "actor" || r.category == "actress") && r.nconst == pid
  | .director => r.category == "director" && r.nconst == pid
  | .writer => r.category == "writer" && r.nconst == pid

/-- Whether a statement is the role-subtype insert (into `Actor`,
`Director` or `Writer`) for person `pid` in the given role. -/
def isSubtypeOp : Role → String → RoleOp → Bool
  | .actor, pid, .insertActor p => p == pid
  | .director, pid, .insertDirector p _ => p == pid
  | .writer, pid, .insertWriter p _ => p == pid
  | _, _, _ => false

/-- The seen set of a given role inside a `RoleState`. -/
def seenSet (s : RoleState) : Role → List String
  | .actor => s.actors
  | .director => s.directors
  | .writer => s.writers

/-- Creation-before-use checker for a statement trace, threading the sets
of persons whose subtype row exists so far: a subtype insert is admissible
only for a person without a subtype row yet (so each person's subtype row
appears at most once), and a membership insert is admissible only for a
person whose subtype row was inserted earlier in the trace. -/
def checkOps (s : RoleState) : List RoleOp → Bool
  | [] => true
  | RoleOp.insertActor p :: rest =>
      !s.actors.contains p && checkOps { s with actors := p :: s.actors } rest
  | RoleOp.actsIn _ p :: rest => s.actors.contains p && checkOps s rest
  | RoleOp.insertDirector p _ :: rest =>
      !s.directors.contains p && checkOps { s with directors := p :: s.directors } rest
  | RoleOp.directs _ p :: rest => s.directors.contains p && checkOps s rest
  | RoleOp.insertWriter p _ :: rest =>
      !s.writers.contains p && checkOps { s with writers := p :: s.writers } rest
  | RoleOp.writesScriptFor _ p :: rest => s.writers.contains p && checkOps s rest

/-- The seen set of every role in the empty starting state is empty. -/
lemma seenSet_empty (role : Role) : seenSet (RoleState.mk [] [] []) role = [] := by
  cases role <;> rfl

/-- Any run of the role loop from a state passes the creation-before-use
checker started at that same state. -/
lemma checkOps_runRoles (rows : List PrincipalRow) :
    ∀ s : RoleState, checkOps s (runRoles s rows) = true := by
  induction rows with
  | nil => intro s; rfl
  | cons r rest ih =>
    intro s
    rw [runRoles]
    by_cases hA : (r.category == "actor" || r.category == "actress") = true
    · by_cases hC : s.actors.contains r.nconst = true
      · simp only [roleStep, hA, hC, if_true, if_pos]
        simp only [List.cons_append, List.nil_append, checkOps, hC, Bool.true_and]
        exact ih s
      · simp only [roleStep, hA, hC, if_true, if_neg, Bool.false_eq_true, not_false_iff]
        simp only [List.cons_append, List.nil_append, checkOps, hC, Bool.not_false,
          Bool.true_and, List.contains_cons, BEq.refl, Bool.true_or]
        exact ih _
    · by_cases hD : (r.category == "director") = true
      · by_cases hC : s.directors.contains r.nconst = true
        · simp only [roleStep, hA, hD, hC, if_true, if_pos, if_neg, Bool.false_eq_true,
            not_false_iff]
          simp only [List.cons_append, List.nil_append, checkOps, hC, Bool.true_and]
          exact ih s
        · simp only [roleStep, hA, hD, hC, if_true, if_neg, Bool.false_eq_true, not_false_iff]
          simp only [List.cons_append, List.nil_append, checkOps, hC, Bool.not_false,
            Bool.true_and, List.contains_cons, BEq.refl, Bool.true_or]
          exact ih _
      · by_cases hW : (r.category == "writer") = true
        · by_cases hC : s.writers.contains r.nconst = true
          · simp only [roleStep, hA, hD, hW, hC, if_true, if_neg, Bool.false_eq_true,
              not_false_iff]
            simp only [List.cons_append, List.nil_append, checkOps, hC, Bool.true_and]
            exact ih s
          · simp only [roleStep, hA, hD, hW, hC, if_true, if_neg, Bool.false_eq_true,
              not_false_iff]
            simp only [List.cons_append, List.nil_append, checkOps, hC, Bool.not_false,
              Bool.true_and, List.contains_cons, BEq.refl, Bool.true_or]
            exact ih _
        · simp only [roleStep, hA, hD, hW, if_neg, Bool.false_eq_true, not_false_iff]
          simp only [List.nil_append]
          exact ih s

/-- Counting `Actor`-subtype inserts for a fixed person in a run of the
role loop: zero if the person is already in the seen set, otherwise one
exactly when the remaining rows observe the person as an actor. -/
lemma countP_subtype_actor (pid : String) (rows : List PrincipalRow) :
    ∀ s : RoleState, (runRoles s rows).countP (isSubtypeOp Role.actor pid)
      = if s.actors.contains pid then 0
        else if rows.any (observes Role.actor pid) then 1 else 0 := by
  induction rows with
  | nil =>
    intro s
    simp only [runRoles, List.countP_nil, List.any_nil, Bool.false_eq_true, if_false]
    split <;> rfl
  | cons r rest ih =>
    intro s
    rw [runRoles, List.countP_append, List.any_cons]
    by_cases hA : (r.category == "actor" || r.category == "actress") = true
    · rcases Bool.eq_false_or_eq_true (s.actors.contains r.nconst) with hC | hC
      · -- person already seen as actor: only the membership insert is issued
        simp only [roleStep, hA, hC, if_true]
        rw [ih s]
        rcases Bool.eq_false_or_eq_true (s.actors.contains pid) with hP | hP
        · have hP2 : pid ∈ s.actors := by simpa using hP
          simp [isSubtypeOp, hP2]
        · have hE : (r.nconst == pid) = false := by
            rcases Bool.eq_false_or_eq_true (r.nconst == pid) with h | h
            · rw [beq_iff_eq.mp h] at hC
              rw [hC] at hP
              exact absurd hP (by simp)
            · exact h
          simp [isSubtypeOp, observes, hA, hE, hP]
      · -- first sighting of this person as an actor
        simp only [roleStep, hA, hC, Bool.false_eq_true, if_false]
        rcases Bool.eq_false_or_eq_true (r.nconst == pid) with hE | hE
        · obtain rfl := beq_iff_eq.mp hE
          have hC2 : r.nconst ∉ s.actors := by simpa using hC
          rw [ih _]
          simp [isSubtypeOp, observes, hA, hC2, List.contains_cons]
        · have hsymm : (pid == r.nconst) = false :=
            beq_eq_false_iff_ne.mpr fun h => (beq_eq_false_iff_ne.mp hE) h.symm
          have hne : pid ≠ r.nconst := beq_eq_false_iff_ne.mp hsymm
          rw [ih _]
          simp [isSubtypeOp, observes, hA, hE, List.contains_cons, hsymm, hne]
    · by_cases hD : (r.category == "director") = true
      · rcases Bool.eq_false_or_eq_true (s.directors.contains r.nconst) with hC | hC
        · simp only [roleStep, hA, hD, hC, Bool.false_eq_true, if_false, if_true]
          rw [ih s]
          simp [isSubtypeOp, observes, hA]
        · simp only [roleStep, hA, hD, hC, Bool.false_eq_true, if_false, if_true]
          rw [ih _]
          simp [isSubtypeOp, observes, hA]
      · by_cases hW : (r.category == "writer") = true
        · rcases Bool.eq_false_or_eq_true (s.writers.contains r.nconst) with hC | hC
          · simp only [roleStep, hA, hD, hW, hC, Bool.false_eq_true, if_false, if_true]
            rw [ih s]
            simp [isSubtypeOp, observes, hA]
          · simp only [roleStep, hA, hD, hW, hC, Bool.false_eq_true, if_false, if_true]
            rw [ih _]
            simp [isSubtypeOp, observes, hA]
        · simp only [roleStep, hA, hD, hW, Bool.false_eq_true, if_false]
          rw [ih s]
          simp [observes, hA]

/-- Counting `Director`-subtype inserts for a fixed person in a run of the
role loop: zero if the person is already in the seen set, otherwise one
exactly when the remaining rows observe the person as a director. -/
lemma countP_subtype_director (pid : String) (rows : List PrincipalRow) :
    ∀ s : RoleState, (runRoles s rows).countP (isSubtypeOp Role.director pid)
      = if s.directors.contains pid then 0
        else if rows.any (observes Role.director pid) then 1 else 0 := by
  induction rows with
  | nil =>
    intro s
    simp only [runRoles, List.countP_nil, List.any_nil, Bool.false_eq_true, if_false]
    split <;> rfl
  | cons r rest ih =>
    intro s
    rw [runRoles, List.countP_append, List.any_cons]
    by_cases hA : (r.category == "actor" || r.category == "actress") = true
    · have hA2 : r.category = "actor" ∨ r.category = "actress" := by simpa using hA
      rcases Bool.eq_false_or_eq_true (s.actors.contains r.nconst) with hC | hC
      · simp only [roleStep, hA, hC, if_true]
        rw [ih s]
        rcases hA2 with h | h <;> simp [isSubtypeOp, observes, h]
      · simp only [roleStep, hA, hC, Bool.false_eq_true, if_false]
        rw [ih _]
        rcases hA2 with h | h <;> simp [isSubtypeOp, observes, h]
    · by_cases hD : (r.category == "director") = true
      · rcases Bool.eq_false_or_eq_true (s.directors.contains r.nconst) with hC | hC
        · -- person already seen as director: only the membership insert is issued
          simp only [roleStep, hA, hD, hC, Bool.false_eq_true, if_false, if_true]
          rw [ih s]
          rcases Bool.eq_false_or_eq_true (s.directors.contains pid) with hP | hP
          · have hP2 : pid ∈ s.directors := by simpa using hP
            simp [isSubtypeOp, hP2]
          · have hE : (r.nconst == pid) = false := by
              rcases Bool.eq_false_or_eq_true (r.nconst == pid) with h | h
              · rw [beq_iff_eq.mp h] at hC
                rw [hC] at hP
                exact absurd hP (by simp)
              · exact h
            simp [isSubtypeOp, observes, hD, hE, hP]
        · -- first sighting of this person as a director
          simp only [roleStep, hA, hD, hC, Bool.false_eq_true, if_false, if_true]
          rcases Bool.eq_false_or_eq_true (r.nconst == pid) with hE | hE
          · obtain rfl := beq_iff_eq.mp hE
            have hC2 : r.nconst ∉ s.directors := by simpa using hC
            rw [ih _]
            simp [isSubtypeOp, observes, hD, hC2, List.contains_cons]
          · have hsymm : (pid == r.nconst) = false :=
              beq_eq_false_iff_ne.mpr fun h => (beq_eq_false_iff_ne.mp hE) h.symm
            have hne : pid ≠ r.nconst := beq_eq_false_iff_ne.mp hsymm
            rw [ih _]
            simp [isSubtypeOp, observes, hD, hE, List.contains_cons, hsymm, hne]
      · by_cases hW : (r.category == "writer") = true
        · have h : r.category = "writer" := by simpa using hW
          rcases Bool.eq_false_or_eq_true (s.writers.contains r.nconst) with hC | hC
          · simp only [roleStep, hA, hD, hW, hC, Bool.false_eq_true, if_false, if_true]
            rw [ih s]
            simp [isSubtypeOp, observes, h]
          · simp only [roleStep, hA, hD, hW, hC, Bool.false_eq_true, if_false, if_true]
            rw [ih _]
            simp [isSubtypeOp, observes, h]
        · simp only [roleStep, hA, hD, hW, Bool.false_eq_true, if_false]
          rw [ih s]
          simp [observes, hD]

/-- Counting `Writer`-subtype inserts for a fixed person in a run of the
role loop: zero if the person is already in the seen set, otherwise one
exactly when the remaining rows observe the person as a writer. -/
lemma countP_subtype_writer (pid : String) (rows : List PrincipalRow) :
    ∀ s : RoleState, (runRoles s rows).countP (isSubtypeOp Role.writer pid)
      = if s.writers.contains pid then 0
        else if rows.any (observes Role.writer pid) then 1 else 0 := by
  induction rows with
  | nil =>
    intro s
    simp only [runRoles, List.countP_nil, List.any_nil, Bool.false_eq_true, if_false]
    split <;> rfl
  | cons r rest ih =>
    intro s
    rw [runRoles, List.countP_append, List.any_cons]
    by_cases hA : (r.category == "actor" || r.category == "actress") = true
    · have hA2 : r.category = "actor" ∨ r.category = "actress" := by simpa using hA
      rcases Bool.eq_false_or_eq_true (s.actors.contains r.nconst) with hC | hC
      · simp only [roleStep, hA, hC, if_true]
        rw [ih s]
        rcases hA2 with h | h <;> simp [isSubtypeOp, observes, h]
      · simp only [roleStep, hA, hC, Bool.false_eq_true, if_false]
        rw [ih _]
        rcases hA2 with h | h <;> simp [isSubtypeOp, observes, h]
    · by_cases hD : (r.category == "director") = true
      · have h : r.category = "director" := by simpa using hD
        rcases Bool.eq_false_or_eq_true (s.directors.contains r.nconst) with hC | hC
        · simp only [roleStep, hA, hD, hC, Bool.false_eq_true, if_false, if_true]
          rw [ih s]
          simp [isSubtypeOp, observes, h]
        · simp only [roleStep, hA, hD, hC, Bool.false_eq_true, if_false, if_true]
          rw [ih _]
          simp [isSubtypeOp, observes, h]
      · by_cases hW : (r.category == "writer") = true
        · rcases Bool.eq_false_or_eq_true (s.writers.contains r.nconst) with hC | hC
          · -- person already seen as writer: only the membership insert is issued
            simp only [roleStep, hA, hD, hW, hC, Bool.false_eq_true, if_false, if_true]
            rw [ih s]
            rcases Bool.eq_false_or_eq_true (s.writers.contains pid) with hP | hP
            · have hP2 : pid ∈ s.writers := by simpa using hP
              simp [isSubtypeOp, hP2]
            · have hE : (r.nconst == pid) = false := by
                rcases Bool.eq_false_or_eq_true (r.nconst == pid) with h | h
                · rw [beq_iff_eq.mp h] at hC
                  rw [hC] at hP
                  exact absurd hP (by simp)
                · exact h
              simp [isSubtypeOp, observes, hW, hE, hP]
          · -- first sighting of this person as a writer
            simp only [roleStep, hA, hD, hW, hC, Bool.false_eq_true, if_false, if_true]
            rcases Bool.eq_false_or_eq_true (r.nconst == pid) with hE | hE
            · obtain rfl := beq_iff_eq.mp hE
              have hC2 : r.nconst ∉ s.writers := by simpa using hC
              rw [ih _]
              simp [isSubtypeOp, observes, hW, hC2, List.contains_cons]
            · have hsymm : (pid == r.nconst) = false :=
                beq_eq_false_iff_ne.mpr fun h => (beq_eq_false_iff_ne.mp hE) h.symm
              have hne : pid ≠ r.nconst := beq_eq_false_iff_ne.mp hsymm
              rw [ih _]
              simp [isSubtypeOp, observes, hW, hE, List.contains_cons, hsymm, hne]
        · simp only [roleStep, hA, hD, hW, Bool.false_eq_true, if_false]
          rw [ih s]
          simp [observes, hW]

/-- C4: in one run of `insert_roles`, for every person id and every role
the role-subtype row is inserted exactly once if that person is observed in
that role and never otherwise (the insert happens at the first
observation), and the trace passes the creation-before-use checker: every
membership statement refers to a person whose subtype insert occurs
earlier in the trace, and no subtype insert is repeated. -/
theorem insert_roles_subtype_once_and_creation_before_use
    (rows : List PrincipalRow) (role : Role) (pid : String) :
    (insert_roles rows).countP (isSubtypeOp role pid)
      = (if rows.any (observes role pid) then 1 else 0) ∧
    checkOps (RoleState.mk [] [] []) (insert_roles rows) = true := by
  constructor
  · cases role with
    | actor =>
      have h := countP_subtype_actor pid rows (RoleState.mk [] [] [])
      simpa using h
    | director =>
      have h := countP_subtype_director pid rows (RoleState.mk [] [] [])
      simpa using h
    | writer =>
      have h := countP_subtype_writer pid rows (RoleState.mk [] [] [])
      simpa using h
  · exact checkOps_runRoles rows _

/-- Database state for the tables touched by `insert_roles`.  Subtype
tables are keyed by person id alone, membership tables by the
(movie, person) pair; only those keys matter for duplicate behaviour, so
rows are stored as their keys. -/
structure RoleDB where
  actorRows : List String
  directorRows : List String
  writerRows : List String
  actsInRows : List (String × String)
  directsRows : List (String × String)
  writesRows : List (String × String)
deriving DecidableEq

/-- The empty (freshly created) role schema. -/
def emptyRoleDB : RoleDB := RoleDB.mk [] [] [] [] [] []

/-- Modelled from the spec: `schema.sql` is not under `src/` (only
`init_db.py`, which executes it statement by statement, is), so the
constraint behaviour of the role tables is taken from the spec — the role
subtype tables are keyed by person id and "uniqueness [is] enforced by the
membership table" on the (movie, person) pair.  A plain `INSERT` whose key
already exists raises a duplicate-key error, aborting the batch; an
`INSERT IGNORE` of an existing key is silently skipped.  In the statement
trace produced by `insert_roles`, `actsIn` is the only `INSERT IGNORE`. -/
def applyOp (db : RoleDB) : RoleOp → Except String RoleDB
  | .insertActor p =>
      if db.actorRows.contains p then .error "Duplicate entry in Actor"
      else .ok { db with actorRows := db.actorRows ++ [p] }
  | .actsIn m p =>
      if db.actsInRows.contains (m, p) then .ok db
      else .ok { db with actsInRows := db.actsInRows ++ [(m, p)] }
  | .insertDirector p _ =>
      if db.directorRows.contains p then .error "Duplicate entry in Director"
      else .ok { db with directorRows := db.directorRows ++ [p] }
  | .directs m p =>
      if db.directsRows.contains (m, p) then .error "Duplicate entry in Directs"
      else .ok { db with directsRows := db.directsRows ++ [(m, p)] }
  | .insertWriter p _ =>
      if db.writerRows.contains p then .error "Duplicate entry in Writer"
      else .ok { db with writerRows := db.writerRows ++ [p] }
  | .writesScriptFor m p =>
      if db.writesRows.contains (m, p) then .error "Duplicate entry in Writes_Script_For"
      else .ok { db with writesRows := db.writesRows ++ [(m, p)] }

/-- Execution of a statement trace against the database: statements run in
order and the first error aborts the batch. -/
def applyOps (db : RoleDB) : List RoleOp → Except String RoleDB
  | [] => .ok db
  | op :: rest =>
    match applyOp db op with
    | .ok db2 => applyOps db2 rest
    | .error e => .error e

/-- Counterexample to C3 as stated: a principals file in which the same
(movie, person) pair is observed twice in the director role makes the
role-loading batch fail with a duplicate-key error on `Directs` — the
duplicate membership insert is not ignored, because only `Acts_In` is
addressed with `INSERT IGNORE`. -/
theorem duplicate_director_membership_fails_batch :
    applyOps emptyRoleDB (insert_roles
      [PrincipalRow.mk "tt0000001" "nm0000001" "director",
       PrincipalRow.mk "tt0000001" "nm0000001" "director"])
      = Except.error "Duplicate entry in Directs" := by rfl

/-- C3 amended: only the acts-in membership insert uses `INSERT IGNORE`, so
a duplicate (movie, person) acts-in attempt is silently ignored and leaves
the database unchanged, while a duplicate directs or writes-script-for
attempt raises a duplicate-key error that fails the batch; in particular a
principals file repeating an (movie, person) actor observation loads
without error. -/
theorem membership_duplicate_handling_amended :
    (∀ (db : RoleDB) (m p : String), db.actsInRows.contains (m, p) = true →
      applyOp db (RoleOp.actsIn m p) = Except.ok db) ∧
    (∀ (db : RoleDB) (m p : String), db.directsRows.contains (m, p) = true →
      applyOp db (RoleOp.directs m p) = Except.error "Duplicate entry in Directs") ∧
    (∀ (db : RoleDB) (m p : String), db.writesRows.contains (m, p) = true →
      applyOp db (RoleOp.writesScriptFor m p) = Except.error "Duplicate entry in Writes_Script_For") ∧
    applyOps emptyRoleDB (insert_roles
      [PrincipalRow.mk "tt0000002" "nm0000002" "actor",
       PrincipalRow.mk "tt0000002" "nm0000002" "actor"])
      = Except.ok (RoleDB.mk ["nm0000002"] [] [] [("tt0000002", "nm0000002")] [] []) := by
  refine ⟨?_, ?_, ?_, by rfl⟩
  · intro db m p h
    have h2 : (m, p) ∈ db.actsInRows := by simpa using h
    simp [applyOp, h2]
  · intro db m p h
    have h2 : (m, p) ∈ db.directsRows := by simpa using h
    simp [applyOp, h2]
  · intro db m p h
    have h2 : (m, p) ∈ db.writesRows := by simpa using h
    simp [applyOp, h2]

/-- Witness for `membership_duplicate_handling_amended` at concrete
database states holding the pair ("tt1", "nm1") in each membership
table. -/
theorem membership_duplicate_handling_amended_witness :
    applyOp (RoleDB.mk [] [] [] [("tt1", "nm1")] [] []) (RoleOp.actsIn "tt1" "nm1")
      = Except.ok (RoleDB.mk [] [] [] [("tt1", "nm1")] [] []) ∧
    applyOp (RoleDB.mk [] [] [] [] [("tt1", "nm1")] []) (RoleOp.directs "tt1" "nm1")
      = Except.error "Duplicate entry in Directs" ∧
    applyOp (RoleDB.mk [] [] [] [] [] [("tt1", "nm1")]) (RoleOp.writesScriptFor "tt1" "nm1")
      = Except.error "Duplicate entry in Writes_Script_For" :=
  ⟨membership_duplicate_handling_amended.1 (RoleDB.mk [] [] [] [("tt1", "nm1")] [] [])
      "tt1" "nm1" (by decide),
   membership_duplicate_handling_amended.2.1 (RoleDB.mk [] [] [] [] [("tt1", "nm1")] [])
      "tt1" "nm1" (by decide),
   membership_duplicate_handling_amended.2.2.1 (RoleDB.mk [] [] [] [] [] [("tt1", "nm1")])
      "tt1" "nm1" (by decide)⟩

/-! ## Movie loading stage (`src/insert_db.py`, `insert_movies`, lines 137–176) -/

/-- One row of `filtered_data/movies.tsv` as read by `insert_movies` and
`insert_genres`.  Numeric TSV cells are carried in parsed form: `startYear`
is the value of `int(float(row.get("startYear")))` (the extractor only
emits rows with a numeric `startYear`), and `runtimeMinutes` is `none` for
an empty cell and `some` of the `int(float(...))` value otherwise.
`originalTitle` carries `""` for an empty cell (Python falsiness), and
`genres` is the raw comma-separated cell, `""` when empty. -/
structure MovieRow where
  tconst : String
  primaryTitle : String
  originalTitle : String
  titleType : String
  startYear : Int
  runtimeMinutes : Option Int
  genres : String
deriving DecidableEq

/-- One row of the `Movies` table as inserted by `insert_movies`. -/
structure MoviesTableRow where
  movieId : String
  primaryTitle : String
  originalTitle : String
  titleType : String
  startYear : Int
  runtimeMinutes : Int
  releaseYear : Int
deriving DecidableEq

/-- The per-row tuple construction of `insert_movies`: `originalTitle`
falls back to `primaryTitle` when falsy, `runtimeMinutes` falls back to 120
when the cell is empty, and `releaseYear` is a copy of `startYear`. -/
def movieToRow (r : MovieRow) : MoviesTableRow :=
  { movieId := r.tconst
    primaryTitle := r.primaryTitle
    originalTitle := if r.originalTitle == "" then r.primaryTitle else r.originalTitle
    titleType := r.titleType
    startYear := r.startYear
    runtimeMinutes := match r.runtimeMinutes with | none => 120 | some v => v
    releaseYear := r.startYear }

/-- Embedding of `insert_movies`: every input row produces exactly one
`Movies` row via `movieToRow` (the rows are accumulated and passed to one
`executemany`). -/
def insert_movies (rows : List MovieRow) : List MoviesTableRow :=
  rows.map movieToRow

/-- Row-by-row pairing for `insert_movies`: each output row copies the
movie id, keeps `startYear`, duplicates it into `releaseYear`, and fills
`runtimeMinutes` with the parsed value or the 120 default, which is
positive whenever every present source value is. -/
lemma insert_movies_pairing (rows : List MovieRow)
    (h : ∀ r ∈ rows, ∀ v, r.runtimeMinutes = some v → 0 < v) :
    List.Forall₂ (fun (r : MovieRow) (out : MoviesTableRow) =>
        out.movieId = r.tconst ∧ out.startYear = r.startYear ∧
        out.releaseYear = r.startYear ∧
        out.runtimeMinutes = r.runtimeMinutes.getD 120 ∧ 0 < out.runtimeMinutes)
      rows (insert_movies rows) := by
  induction rows with
  | nil => simp [insert_movies]
  | cons r rest ih =>
    simp only [insert_movies, List.map_cons]
    refine List.Forall₂.cons ⟨rfl, rfl, rfl, ?_, ?_⟩
      (ih fun x hx v hv => h x (List.mem_cons_of_mem r hx) v hv)
    · cases hrt : r.runtimeMinutes with
      | none => simp [movieToRow, hrt]
      | some v => simp [movieToRow, hrt]
    · cases hrt : r.runtimeMinutes with
      | none => simp [movieToRow, hrt]
      | some v =>
        have hv := h r (List.mem_cons_self r rest) v hrt
        simpa [movieToRow, hrt] using hv

/-- C6: `insert_movies` produces exactly one `Movies` row per input row;
each output's `runtimeMinutes` is the parsed source value, or 120 when the
source cell is empty (hence positive for well-formed input, whose present
runtime values are positive), and `releaseYear` equals the parsed
`startYear`; in particular a single row with `startYear = 2015` and an
empty runtime yields a single row with `runtimeMinutes = 120`. -/
theorem insert_movies_runtime_default_and_release_year (rows : List MovieRow)
    (h : ∀ r ∈ rows, ∀ v, r.runtimeMinutes = some v → 0 < v) :
    (insert_movies rows).length = rows.length ∧
    List.Forall₂ (fun (r : MovieRow) (out : MoviesTableRow) =>
        out.movieId = r.tconst ∧ out.startYear = r.startYear ∧
        out.releaseYear = r.startYear ∧
        out.runtimeMinutes = r.runtimeMinutes.getD 120 ∧ 0 < out.runtimeMinutes)
      rows (insert_movies rows) ∧
    insert_movies [MovieRow.mk "tt0000003" "One" "One" "movie" 2015 none "Drama"]
      = [MoviesTableRow.mk "tt0000003" "One" "One" "movie" 2015 120 2015] :=
  ⟨by simp [insert_movies], insert_movies_pairing rows h, rfl⟩

/-- Witness for `insert_movies_runtime_default_and_release_year`: a
two-row movie file, one row with an empty runtime cell and one with a
positive parsed runtime. -/
theorem insert_movies_runtime_default_and_release_year_witness :
    (insert_movies
        [MovieRow.mk "tt1" "A" "" "movie" 2015 none "Drama",
         MovieRow.mk "tt2" "B" "B" "movie" 2020 (some 95) ""]).length = 2 ∧
    insert_movies [MovieRow.mk "tt0000003" "One" "One" "movie" 2015 none "Drama"]
      = [MoviesTableRow.mk "tt0000003" "One" "One" "movie" 2015 120 2015] := by
  have hpos : ∀ r ∈ [MovieRow.mk "tt1" "A" "" "movie" 2015 none "Drama",
      MovieRow.mk "tt2" "B" "B" "movie" 2020 (some 95) ""],
      ∀ v : Int, r.runtimeMinutes = some v → 0 < v := by
    intro r hr v hv
    simp only [List.mem_cons, List.not_mem_nil, or_false] at hr
    rcases hr with rfl | rfl
    · exact absurd hv (by simp)
    · injection hv with hv95
      omega
  have h := insert_movies_runtime_default_and_release_year
    [MovieRow.mk "tt1" "A" "" "movie" 2015 none "Drama",
     MovieRow.mk "tt2" "B" "B" "movie" 2020 (some 95) ""] hpos
  exact ⟨h.1, h.2.2⟩

/-! ## Genre stage (`src/insert_db.py`, `insert_genres`, lines 278–305) -/

/-- Database state for the genre stage: the `Genre` table as
(genreId, name) rows and the `Has_Genre` table as (movieId, genreId) rows.
Modelled from the spec: `schema.sql` is not under `src/`, and the spec
says the loader derives surrogate genre ids, so `Genre.genreId` is an
auto-increment surrogate key — `nextGenreId` is the engine's counter, and
each inserted genre row receives the next id. -/
structure GenreDB where
  genreRows : List (Nat × String)
  hasGenreRows : List (String × Nat)
  nextGenreId : Nat
deriving DecidableEq

/-- The first listed genre of a raw `genres` cell:
`row.get("genres").split(",")[0].strip()`. -/
def firstGenre (genres : String) : String :=
  ((genres.splitOn ",").headD "").trim

/-- The lookup `SELECT genreId FROM Genre WHERE name = %s` followed by
`fetchone()`: the first genre row with that name, if any, projected to its
id. -/
def lookupGenreId (db : GenreDB) (name : String) : Option Nat :=
  (db.genreRows.find? fun gr => gr.2 == name).map fun gr => gr.1

/-- The statement `INSERT INTO Genre (name) VALUES (%s)` under the
auto-increment id model. -/
def insertGenreRow (db : GenreDB) (name : String) : GenreDB :=
  { db with genreRows := db.genreRows ++ [(db.nextGenreId, name)],
            nextGenreId := db.nextGenreId + 1 }

/-- The row loop of `insert_genres`: an empty `genres` cell is skipped;
otherwise the first listed genre is inserted into `Genre` if not yet in the
in-memory seen set, its id is fetched by name, and one `Has_Genre` link is
inserted.  `fetchone()` returning no row would crash the Python subscript
`[0]`; that is the `error` branch. -/
def genreLoop (seenG : List String) (db : GenreDB) : List MovieRow → Except String GenreDB
  | [] => .ok db
  | r :: rest =>
    if r.genres == "" then genreLoop seenG db rest
    else
      let g := firstGenre r.genres
      let seen2 := if seenG.contains g then seenG else g :: seenG
      let db2 := if seenG.contains g then db else insertGenreRow db g
      match lookupGenreId db2 g with
      | none => .error "fetchone returned no row"
      | some gid =>
        genreLoop seen2 { db2 with hasGenreRows := db2.hasGenreRows ++ [(r.tconst, gid)] }
          rest

/-- Embedding of `insert_genres`: scan the movie file with an empty seen
set against the freshly created (empty) genre tables. -/
def insert_genres (rows : List MovieRow) : Except String GenreDB :=
  genreLoop [] (GenreDB.mk [] [] 1) rows

/-- A genre name present in the `Genre` table is found by the name lookup,
which returns the id of a row carrying exactly that name. -/
lemma lookupGenreId_mem (db : GenreDB) (g : String)
    (h : g ∈ db.genreRows.map Prod.snd) :
    ∃ gr ∈ db.genreRows, gr.2 = g ∧ lookupGenreId db g = some gr.1 := by
  rcases hf : db.genreRows.find? (fun gr => gr.2 == g) with _ | gr0
  · exfalso
    rw [List.find?_eq_none] at hf
    obtain ⟨gr, hgr, hsnd⟩ := List.mem_map.mp h
    exact hf gr hgr (by simp [hsnd])
  · have hp := List.find?_some hf
    refine ⟨gr0, List.mem_of_find?_eq_some hf, ?_, ?_⟩
    · simpa using hp
    · simp [lookupGenreId, hf]

/-- Main invariant lemma for the genre stage.  Starting from a state where
the in-memory seen set holds exactly the genre names present in the table,
names are pairwise distinct, ids are pairwise distinct and below the
auto-increment counter: the loop never errors, only appends genre rows,
preserves all those invariants, and appends exactly one `Has_Genre` link
per input row with a non-empty `genres` cell, each link carrying that
row's movie id and the id of a genre row named with the row's first listed
genre. -/
lemma genreLoop_spec (rows : List MovieRow) :
    ∀ (seenG : List String) (db : GenreDB),
    (∀ n, n ∈ seenG ↔ n ∈ db.genreRows.map Prod.snd) →
    (db.genreRows.map Prod.snd).Nodup →
    (db.genreRows.map Prod.fst).Nodup →
    (∀ gr ∈ db.genreRows, gr.1 < db.nextGenreId) →
    ∃ db' : GenreDB,
      genreLoop seenG db rows = Except.ok db' ∧
      (∃ newGenres, db'.genreRows = db.genreRows ++ newGenres) ∧
      (db'.genreRows.map Prod.snd).Nodup ∧
      (db'.genreRows.map Prod.fst).Nodup ∧
      (∀ gr ∈ db'.genreRows, gr.1 < db'.nextGenreId) ∧
      ∃ newLinks, db'.hasGenreRows = db.hasGenreRows ++ newLinks ∧
        List.Forall₂ (fun (r : MovieRow) (l : String × Nat) =>
            l.1 = r.tconst ∧ (l.2, firstGenre r.genres) ∈ db'.genreRows)
          (rows.filter fun r => !(r.genres == "")) newLinks := by
  induction rows with
  | nil =>
    intro seenG db hiff hnodupN hnodupI hlt
    exact ⟨db, rfl, ⟨[], by simp⟩, hnodupN, hnodupI, hlt, [], by simp, by simp⟩
  | cons r rest ih =>
    intro seenG db hiff hnodupN hnodupI hlt
    rcases Bool.eq_false_or_eq_true (r.genres == "") with hg | hg
    · -- empty genres cell: the row is skipped and produces no link
      obtain ⟨db', hrun, hext, h1, h2, h3, newLinks, hlinks, hfa⟩ :=
        ih seenG db hiff hnodupN hnodupI hlt
      refine ⟨db', ?_, hext, h1, h2, h3, newLinks, hlinks, ?_⟩
      · rw [genreLoop, if_pos hg]
        exact hrun
      · simpa [List.filter_cons, hg] using hfa
    · rcases Bool.eq_false_or_eq_true (seenG.contains (firstGenre r.genres)) with hseen | hseen
      · -- genre name already seen: reuse the existing id via lookup
        have hmem : firstGenre r.genres ∈ db.genreRows.map Prod.snd :=
          (hiff _).mp (by simpa using hseen)
        obtain ⟨gr0, hgr0mem, hgr0name, hgr0look⟩ := lookupGenreId_mem db _ hmem
        obtain ⟨db', hrun, ⟨newGenres, hext⟩, h1, h2, h3, newLinks, hlinks, hfa⟩ :=
          ih seenG { db with hasGenreRows := db.hasGenreRows ++ [(r.tconst, gr0.1)] }
            hiff hnodupN hnodupI hlt
        refine ⟨db', ?_, ⟨newGenres, hext⟩, h1, h2, h3,
          (r.tconst, gr0.1) :: newLinks, ?_, ?_⟩
        · have hrw : genreLoop seenG db (r :: rest)
              = genreLoop seenG
                  { db with hasGenreRows := db.hasGenreRows ++ [(r.tconst, gr0.1)] } rest := by
            simp only [genreLoop, hg, Bool.false_eq_true, if_false, hseen, if_true, hgr0look]
          rw [hrw]
          exact hrun
        · simpa using hlinks
        · rw [List.filter_cons_of_pos (by simp [hg])]
          refine List.Forall₂.cons ⟨rfl, ?_⟩ hfa
          have hpair : gr0 = (gr0.1, firstGenre r.genres) := by
            rw [← hgr0name]
          rw [hext]
          exact List.mem_append_left _ (hpair ▸ hgr0mem)
      · -- first sighting of this genre name: insert a fresh genre row
        have hnotseen : firstGenre r.genres ∉ seenG := by simpa using hseen
        have hnot : firstGenre r.genres ∉ db.genreRows.map Prod.snd :=
          fun hc => hnotseen ((hiff _).mpr hc)
        have hiff2 : ∀ n, n ∈ firstGenre r.genres :: seenG
            ↔ n ∈ (insertGenreRow db (firstGenre r.genres)).genreRows.map Prod.snd := by
          intro n
          simp [insertGenreRow, hiff n, List.mem_append, or_comm]
        have hnodupN2 :
            ((insertGenreRow db (firstGenre r.genres)).genreRows.map Prod.snd).Nodup := by
          simp [insertGenreRow, List.nodup_append, hnodupN, hnot]
        have hfresh : db.nextGenreId ∉ db.genreRows.map Prod.fst := by
          intro hc
          obtain ⟨gr, hgr, hfst⟩ := List.mem_map.mp hc
          exact absurd (hfst ▸ hlt gr hgr) (lt_irrefl _)
        have hnodupI2 :
            ((insertGenreRow db (firstGenre r.genres)).genreRows.map Prod.fst).Nodup := by
          simp [insertGenreRow, List.nodup_append, hnodupI, hfresh]
        have hlt2 : ∀ gr ∈ (insertGenreRow db (firstGenre r.genres)).genreRows,
            gr.1 < (insertGenreRow db (firstGenre r.genres)).nextGenreId := by
          intro gr hgr
          simp only [insertGenreRow, List.mem_append, List.mem_singleton] at hgr
          rcases hgr with hgr | rfl
          · exact lt_trans (hlt gr hgr) (Nat.lt_succ_self _)
          · exact Nat.lt_succ_self _
        have hmem2 : firstGenre r.genres
            ∈ (insertGenreRow db (firstGenre r.genres)).genreRows.map Prod.snd := by
          simp [insertGenreRow]
        obtain ⟨gr0, hgr0mem, hgr0name, hgr0look⟩ := lookupGenreId_mem _ _ hmem2
        obtain ⟨db', hrun, ⟨newGenres, hext⟩, h1, h2, h3, newLinks, hlinks, hfa⟩ :=
          ih (firstGenre r.genres :: seenG)
            { insertGenreRow db (firstGenre r.genres) with
                hasGenreRows :=
                  (insertGenreRow db (firstGenre r.genres)).hasGenreRows ++ [(r.tconst, gr0.1)] }
            hiff2 hnodupN2 hnodupI2 hlt2
        refine ⟨db', ?_,
          ⟨(db.nextGenreId, firstGenre r.genres) :: newGenres, ?_⟩, h1, h2, h3,
          (r.tconst, gr0.1) :: newLinks, ?_, ?_⟩
        · have hrw : genreLoop seenG db (r :: rest)
              = genreLoop (firstGenre r.genres :: seenG)
                  { insertGenreRow db (firstGenre r.genres) with
                      hasGenreRows :=
                        (insertGenreRow db (firstGenre r.genres)).hasGenreRows
                          ++ [(r.tconst, gr0.1)] } rest := by
            simp only [genreLoop, hg, Bool.false_eq_true, if_false, hseen, hgr0look]
          rw [hrw]
          exact hrun
        · rw [hext]
          simp [insertGenreRow]
        · simpa [insertGenreRow] using hlinks
        · rw [List.filter_cons_of_pos (by simp [hg])]
          refine List.Forall₂.cons ⟨rfl, ?_⟩ hfa
          have hpair : gr0 = (gr0.1, firstGenre r.genres) := by
            rw [← hgr0name]
          rw [hext]
          exact List.mem_append_left _ (hpair ▸ hgr0mem)

/-- C5: in a single run of the genre stage from a fresh schema the loop
never errors; every genre name and every genre id occurs on at most one
`Genre` row (a seen name is reused via lookup, never re-inserted); and the
`Has_Genre` links are in bijection, in file order, with the input rows
having a non-empty `genres` cell — each such row contributes exactly one
link, carrying the row's movie id and the id of the genre row named by the
row's first listed genre, while rows with an empty `genres` cell
contribute none. -/
theorem insert_genres_single_link_and_unique_genres (rows : List MovieRow) :
    ∃ db : GenreDB,
      insert_genres rows = Except.ok db ∧
      (db.genreRows.map Prod.snd).Nodup ∧
      (db.genreRows.map Prod.fst).Nodup ∧
      List.Forall₂ (fun (r : MovieRow) (l : String × Nat) =>
          l.1 = r.tconst ∧ (l.2, firstGenre r.genres) ∈ db.genreRows)
        (rows.filter fun r => !(r.genres == "")) db.hasGenreRows := by
  obtain ⟨db, hrun, _, h1, h2, _, newLinks, hlinks, hfa⟩ :=
    genreLoop_spec rows [] (GenreDB.mk [] [] 1) (by simp) (by simp) (by simp) (by simp)
  refine ⟨db, hrun, h1, h2, ?_⟩
  rw [show db.hasGenreRows = newLinks from by simpa using hlinks]
  exact hfa

/-! ## Favorites stage (`src/insert_db.py`, `insert_favorites`, lines 361–378) -/

/-- The rows built for the i-th user (0-based position in the `SELECT
userId` result) with id `uid`: `fav_count = random.randint(5, 30)` and
`fav_movies = random.sample(movie_ids, fav_count)`, one (userId, movieId)
pair per sampled movie.  The random module is an oracle: `counts i` is the
i-th `randint(5, 30)` draw and `samples i pop k` the i-th
`random.sample(pop, k)` draw; their documented contracts (result in range;
a sample of a duplicate-free population is k distinct members) are
hypotheses of the theorem. -/
def favRowsForUser (movie_ids : List String) (counts : Nat → Nat)
    (samples : Nat → List String → Nat → List String) (i : Nat) (uid : Int) :
    List (Int × String) :=
  (samples i movie_ids (counts i)).map fun mid => (uid, mid)

/-- Embedding of `insert_favorites`: iterate over the users in result
order, concatenating each user's favorite rows (the Python loop appends
them all into one `rows` list for a single `executemany`). -/
def insert_favorites (user_ids : List Int) (movie_ids : List String)
    (counts : Nat → Nat) (samples : Nat → List String → Nat → List String) :
    List (Int × String) :=
  (user_ids.enum.map fun p => favRowsForUser movie_ids counts samples p.1 p.2).flatten

/-- C8: provided the Movies table holds at least 30 movies (at least as
many as any drawn subset size) and its ids are distinct (movieId is the
key column), every user in the User table receives between 5 and 30
favorite pairs, the paired movies are pairwise distinct within that user's
set, and every pair carries that user's id and an existing movie id.  The
RNG oracles are constrained only by the `random.randint` /`random.sample`
contracts, so this holds for every possible draw. -/
theorem insert_favorites_per_user_bounds
    (user_ids : List Int) (movie_ids : List String)
    (counts : Nat → Nat) (samples : Nat → List String → Nat → List String)
    (hcount : ∀ i, 5 ≤ counts i ∧ counts i ≤ 30)
    (hsample : ∀ (i : Nat) (pop : List String) (k : Nat), k ≤ pop.length → pop.Nodup →
      (samples i pop k).length = k ∧ (samples i pop k).Nodup ∧
      ∀ x ∈ samples i pop k, x ∈ pop)
    (hm : 30 ≤ movie_ids.length) (hnodupM : movie_ids.Nodup) :
    insert_favorites user_ids movie_ids counts samples
      = (user_ids.enum.map fun p => favRowsForUser movie_ids counts samples p.1 p.2).flatten ∧
    ∀ i uid, (i, uid) ∈ user_ids.enum →
      5 ≤ (favRowsForUser movie_ids counts samples i uid).length ∧
      (favRowsForUser movie_ids counts samples i uid).length ≤ 30 ∧
      ((favRowsForUser movie_ids counts samples i uid).map Prod.snd).Nodup ∧
      ∀ p ∈ favRowsForUser movie_ids counts samples i uid,
        p.1 = uid ∧ p.2 ∈ movie_ids := by
  refine ⟨rfl, fun i uid _ => ?_⟩
  obtain ⟨hlen, hnodup, hsub⟩ :=
    hsample i movie_ids (counts i) (le_trans (hcount i).2 hm) hnodupM
  refine ⟨?_, ?_, ?_, ?_⟩
  · rw [favRowsForUser, List.length_map, hlen]
    exact (hcount i).1
  · rw [favRowsForUser, List.length_map, hlen]
    exact (hcount i).2
  · rw [favRowsForUser, List.map_map]
    simpa [Function.comp] using hnodup
  · intro p hp
    rw [favRowsForUser, List.mem_map] at hp
    obtain ⟨mid, hmid, rfl⟩ := hp
    exact ⟨rfl, hsub mid hmid⟩

/-- A deterministic stand-in for `random.sample` used to witness the
favorites theorem: take the first k members of the population. -/
def sampleTake (_i : Nat) (pop : List String) (k : Nat) : List String :=
  pop.take k

/-- `sampleTake` obeys the `random.sample` contract. -/
lemma sampleTake_contract (i : Nat) (pop : List String) (k : Nat)
    (hk : k ≤ pop.length) (hnd : pop.Nodup) :
    (sampleTake i pop k).length = k ∧ (sampleTake i pop k).Nodup ∧
      ∀ x ∈ sampleTake i pop k, x ∈ pop := by
  refine ⟨?_, ?_, ?_⟩
  · rw [sampleTake, List.length_take]
    omega
  · exact hnd.sublist (List.take_sublist k pop)
  · intro x hx
    exact List.take_subset _ _ hx

/-- A 30-movie table with pairwise-distinct ids, used to witness the
favorites theorem. -/
def movieIdsW : List String :=
  ["m01", "m02", "m03", "m04", "m05", "m06", "m07", "m08", "m09", "m10",
   "m11", "m12", "m13", "m14", "m15", "m16", "m17", "m18", "m19", "m20",
   "m21", "m22", "m23", "m24", "m25", "m26", "m27", "m28", "m29", "m30"]

/-- Witness for `insert_favorites_per_user_bounds`: a single user with id 7
and a constant 5-element draw from the 30-movie table. -/
theorem insert_favorites_per_user_bounds_witness :
    5 ≤ (favRowsForUser movieIdsW (fun _ => 5) sampleTake 0 7).length ∧
    (favRowsForUser movieIdsW (fun _ => 5) sampleTake 0 7).length ≤ 30 ∧
    ((favRowsForUser movieIdsW (fun _ => 5) sampleTake 0 7).map Prod.snd).Nodup := by
  have h := (insert_favorites_per_user_bounds [7] movieIdsW (fun _ => 5) sampleTake
      (fun i => ⟨by norm_num, by norm_num⟩) sampleTake_contract (by decide) (by decide)).2
      0 7 (by decide)
  exact ⟨h.1, h.2.1, h.2.2.1⟩

/-! ## Source extractor driver (`src/filter_data.py`, `__main__`, lines 121–130) -/

/-- The calls made, in order, by the `__main__` block of
`filter_data.py`. -/
def extractorSteps : List String :=
  ["filter_movies", "filter_principals", "filter_crew", "filter_ratings", "filter_people"]

/-- The functions actually defined in the `filter_data.py` module. -/
def extractorDefs : List String :=
  ["filter_movies", "filter_principals", "filter_crew", "filter_people"]

/-- Python name resolution for the driver: the calls run in order, and a
call to a name with no definition in the module raises `NameError`, ending
the run.  Returns the list of calls that executed and the error, if
any. -/
def runExtractor : List String → List String × Option String
  | [] => ([], none)
  | f :: rest =>
    if extractorDefs.contains f then
      ((runExtractor rest).1.cons f, (runExtractor rest).2)
    else
      ([], some ("NameError: name \x27" ++ f ++ "\x27 is not defined"))

/-- C9 (code bug): with all four raw input files present, the driver runs
the first three filter steps and then crashes with a `NameError` on the
call to `filter_ratings`, which is defined nowhere in the module, so
`filter_people` — the step the claim and the module's own completion
message require — never executes. -/
theorem extractor_driver_name_error :
    runExtractor extractorSteps
      = (["filter_movies", "filter_principals", "filter_crew"],
         some "NameError: name \x27filter_ratings\x27 is not defined") ∧
    "filter_people" ∉ (runExtractor extractorSteps).1 := by
  constructor
  · rfl
  · decide

end FilmDB
